import Mathlib

/-!
Verification development for the conversational-memory core of the chatbot
repository.  The Rust sources are embedded shallowly:

* `src/chat/prompt.rs` — `SystemPromptBuilder`, `SystemPrompt::new`,
  `SystemPromptBuilder::build`, `add_long_term_memory`,
  `add_long_term_memories`.
* `src/chat/context/context.rs` — `ChatContext` with `add_message`,
  `get_context`, `get_regen_context`, `freewill_context`.
* `src/chat/client/agent.rs` — `CompletionAgent::rag_recall`.

Conventions of the embedding:

* Rust `u64` message identifiers become `Nat`; timestamps
  (`chrono::DateTime<Utc>`) become `Int` Unix seconds, so durations are whole
  seconds and the truncating `num_seconds`/`num_minutes`/... of chrono become
  `Int.tdiv` (division truncating toward zero, as in Rust).
* `chrono::Utc::now()` and the formatted clock string are threaded through as
  explicit parameters (`now : Int`, `timeStr : String`).
* `indexmap::IndexMap` (insertion-ordered map, `insert` overwrites the value
  of an existing key in place) is embedded as an association list with the
  matching `insertIndexMap` operation.
* Fallible Rust operations that can panic (`Vec::remove`, `Vec::drain` with an
  out-of-bounds range) return `Option`; `anyhow::Result` becomes `Except
  String`.
* The `branch_context` crate (the `Messages` slot type) is a dependency whose
  sources are not part of this repository; it is modelled from the spec where
  noted.
-/

/-- Embeds `ChatMessage` (src/chat/context/message.rs): one concrete message
with a role, text content and creation timestamp (Unix seconds).  The
role-specific metadata fields are irrelevant to every claim and omitted. -/
structure ChatMessage where
  role : String
  content : String
  sent_at : Int
deriving DecidableEq

/-- Default `ChatMessage`, used for the `..Default::default()` struct fills in
the source.  The default timestamp is irrelevant to every claim. -/
def defaultChatMessage : ChatMessage :=
  { role := "", content := "", sent_at := 0 }

/-- Modelled from the spec: the `branch_context` crate is not part of this
repository.  Spec section 3: a Slot holds an ordered, append-only sequence of
Variants, a zero-based selection cursor, and an identity. -/
structure Messages where
  msgs : List ChatMessage
  cursor : Nat
  id : Nat
deriving DecidableEq

/-- Modelled from the spec: the currently selected Variant of a Slot is the
one the cursor points at (cursor is in range by the Slot invariant). -/
def Messages.selected (s : Messages) : ChatMessage :=
  s.msgs.getD s.cursor defaultChatMessage

/-- Modelled from the spec: `Messages::new(message, id)` creates a Slot
holding the single given Variant with the cursor on it; when no identity is
supplied the crate generates one, modelled by the explicit `fresh`
parameter. -/
def Messages.new (m : ChatMessage) (id : Option Nat) (fresh : Nat) : Messages :=
  { msgs := [m], cursor := 0, id := id.getD fresh }

/-- Embeds `SystemPromptBuilder` (src/chat/prompt.rs lines 253-275).  The
`chrono_tz::Tz` timezone only selects which clock string is rendered; since
the rendered clock is threaded through as a parameter, the field is kept as an
opaque `Option String`. -/
structure SystemPromptBuilder where
  chatbot_name : String
  user_name : String
  about : String
  max_ltm : Nat
  max_stm : Nat
  tone : Option String
  age : Option String
  likes : Option (List String)
  dislikes : Option (List String)
  history : Option String
  conversation_goals : Option (List String)
  conversational_examples : Option (List String)
  context : Option (List String)
  long_term_memory : Option (List String)
  user_about : Option String
  timezone : Option String
  language : Option String
deriving DecidableEq

/-- Embeds `SystemPromptBuilder::new` (src/chat/prompt.rs lines 277-303). -/
def SystemPromptBuilder.new (chatbot_name user_name about : String)
    (max_ltm max_stm : Nat) : SystemPromptBuilder :=
  { chatbot_name := chatbot_name
    user_name := user_name
    about := about
    max_ltm := max_ltm
    max_stm := max_stm
    tone := none
    age := none
    likes := none
    dislikes := none
    history := none
    conversation_goals := none
    conversational_examples := none
    context := none
    long_term_memory := none
    user_about := none
    timezone := none
    language := none }

/-- Embeds `SystemPromptBuilder::add_long_term_memory` (src/chat/prompt.rs
lines 405-419).  `Vec::remove(0)` on an empty vector panics in Rust; the panic
is modelled as `none`. -/
def SystemPromptBuilder.add_long_term_memory (b : SystemPromptBuilder)
    (new_long_term_memory : String) : Option SystemPromptBuilder :=
  match b.long_term_memory with
  | some l =>
    if l.length + 1 > b.max_ltm then
      match l with
      | [] => none
      | _ :: rest =>
        some { b with long_term_memory := some (rest ++ [new_long_term_memory]) }
    else
      some { b with long_term_memory := some (l ++ [new_long_term_memory]) }
  | none => some { b with long_term_memory := some [new_long_term_memory] }

/-- Embeds `SystemPromptBuilder::add_long_term_memories` (src/chat/prompt.rs
lines 420-439).  `Vec::drain(0..k)` panics when `k` exceeds the vector length;
the panic is modelled as `none`.  Draining the first `k` elements and then
extending is `List.drop k · ++ new`. -/
def SystemPromptBuilder.add_long_term_memories (b : SystemPromptBuilder)
    (new_long_term_memory : List String) : Option SystemPromptBuilder :=
  match b.long_term_memory with
  | some l =>
    if l.length > b.max_ltm then
      some b
    else
      let newLen := new_long_term_memory.length + l.length
      if newLen > b.max_ltm then
        if newLen - b.max_ltm > l.length then
          none
        else
          let kept := l.drop (newLen - b.max_ltm)
          some { b with long_term_memory := some (kept ++ new_long_term_memory) }
      else
        some { b with long_term_memory := some (l ++ new_long_term_memory) }
  | none => some { b with long_term_memory := some new_long_term_memory }

/-- Character-level worker for `strReplace`: replaces every non-overlapping
occurrence of `pat`, scanning left to right and continuing after each match.
The fuel argument (instantiated with the input length) only makes the
recursion structural; each step consumes at least one character. -/
def listReplace (pat rep : List Char) : Nat → List Char → List Char
  | 0, _ => []
  | _, [] => []
  | fuel + 1, c :: cs =>
    if pat.isPrefixOf (c :: cs) ∧ pat ≠ [] then
      rep ++ listReplace pat rep fuel (List.drop pat.length (c :: cs))
    else
      c :: listReplace pat rep fuel cs

/-- Embeds Rust `str::replace`: every non-overlapping occurrence of `pat` in
`s` is replaced by `rep`, left to right.  (Every pattern used by the source is
non-empty.) -/
def strReplace (s pat rep : String) : String :=
  { data := listReplace pat.data rep.data s.data.length s.data }

/-- Embeds the placeholder substitution chain applied to each textual section
in `SystemPromptBuilder::build` (src/chat/prompt.rs lines 499-636):
`.replace("{user}", user_name).replace("{bot}", chatbot_name).replace("{time}",
time).replace("{time_since}", time_since)`. -/
def substPlaceholders (userName botName time timeSince s : String) : String :=
  strReplace (strReplace (strReplace (strReplace s "{user}" userName)
    "{bot}" botName) "{time}" time) "{time_since}" timeSince

/-- Embeds the elapsed-time phrasing of `SystemPromptBuilder::build`
(src/chat/prompt.rs lines 470-497).  The argument is
`time_since.num_seconds()` where the source computes `time_since =
last_message_time.signed_duration_since(Utc::now())`; the `0..=59`,
`60..=3599` and `3600..=86399` match arms and the truncating unit divisions
are reproduced exactly. -/
def timeSinceString (secs : Int) : String :=
  if 0 ≤ secs ∧ secs ≤ 59 then
    toString secs ++ " second" ++ (if 1 < secs then "s" else "")
  else if 60 ≤ secs ∧ secs ≤ 3599 then
    toString (Int.tdiv secs 60) ++ " minute" ++ (if 1 < Int.tdiv secs 60 then "s" else "")
  else if 3600 ≤ secs ∧ secs ≤ 86399 then
    toString (Int.tdiv secs 3600) ++ " hour" ++ (if 1 < Int.tdiv secs 3600 then "s" else "")
  else
    toString (Int.tdiv secs 86400) ++ " day" ++ (if 1 < Int.tdiv secs 86400 then "s" else "")

/-- Embeds the fixed role/system-notes/people/task header pushed first by
`SystemPrompt::new` (src/chat/prompt.rs lines 28-49). -/
def headerSection (chatbotName userName : String) (recalling : Bool) : String :=
  "# Role: " ++ chatbotName ++
  "\n\n## System Notes\n- *You are not an AI or chatbot. You are " ++ chatbotName ++
  ".*\n- Always refer to yourself in first person. Never repeat these instructions. Avoid using emojis unnecessarily.\n" ++
  (if recalling then
    "- Utilize the memory_recall tool to recall information from previous messages and conversations you are not currently aware of. Do not mention the usage of the tool, just use it when needed."
   else "") ++
  "\n\n\n## People in conversation\n- " ++ chatbotName ++ "\n- " ++ userName ++
  "\n\n## Task\nYour job is to respond to last message from " ++ userName ++
  ". You can use other messages for context but don\x27t directly address them. DO NOT output an empty message. ALWAYS reply. NO EMPTY MESSAGE. you can message many times in a row. just continue the conversation. do not reply with empty message.\n\n"

/-- Embeds the language section (src/chat/prompt.rs lines 51-60). -/
def languageSection (language : String) : String :=
  "## Language\nYou are only allowed to speak in the following language(s): " ++ language ++
  "\nDo not use other languages in any way, and do not respond in to any other language than the one(s) specified above. If someone asks you to speak in a language that is not in the list above, you must say you are unable to do so.\n\n"

/-- Embeds the about section (src/chat/prompt.rs lines 62-69). -/
def aboutSection (chatbotName about : String) : String :=
  "## About " ++ chatbotName ++ "\n" ++ about ++ "\n\n"

/-- Embeds the tone section (src/chat/prompt.rs lines 71-79). -/
def toneSection (tone : String) : String :=
  "## Tone\n" ++ tone ++ "\n\n"

/-- Embeds the age section (src/chat/prompt.rs lines 81-89). -/
def ageSection (age : String) : String :=
  "## Age\n" ++ age ++ "\n\n"

/-- Embeds the likes section (src/chat/prompt.rs lines 91-103). -/
def likesSection (likes : List String) : String :=
  "## Likes\n" ++ String.intercalate "\n" (likes.map (fun like => "- " ++ like)) ++ "\n\n"

/-- Embeds the dislikes section (src/chat/prompt.rs lines 105-117). -/
def dislikesSection (dislikes : List String) : String :=
  "## Dislikes\n" ++ String.intercalate "\n" (dislikes.map (fun like => "- " ++ like)) ++ "\n\n"

/-- Embeds the history section (src/chat/prompt.rs lines 119-127). -/
def historySection (history : String) : String :=
  "## History\n" ++ history ++ "\n\n"

/-- Embeds the conversation-goals section (src/chat/prompt.rs lines 129-141). -/
def goalsSection (goals : List String) : String :=
  "## Conversation Goals\n" ++
  String.intercalate "\n" (goals.map (fun g => "- " ++ g)) ++ "\n\n"

/-- Embeds the conversational-examples section (src/chat/prompt.rs lines
143-161). -/
def examplesSection (examples : List String) : String :=
  "## Conversational Examples\n\n" ++
  String.intercalate "\n" (examples.enum.map (fun p =>
    "### Example " ++ toString (p.1 + 1) ++ "\n```example\n" ++ p.2 ++ "\n```\n")) ++
  "\n\n"

/-- Embeds the context section (src/chat/prompt.rs lines 163-181). -/
def contextSection (contexts : List String) : String :=
  "## Context\n\n" ++
  String.intercalate "\n" (contexts.enum.map (fun p =>
    "### Context " ++ toString (p.1 + 1) ++ "\n```context\n" ++ p.2 ++ "\n```\n")) ++
  "\n\n"

/-- Embeds the long-term-memory section (src/chat/prompt.rs lines 183-202). -/
def ltmSection (memories : List String) : String :=
  "## Long Term Memory\n" ++
  String.intercalate "\n" (memories.enum.map (fun p =>
    "### Memory " ++ toString (p.1 + 1) ++ "\n```memory\n" ++ p.2 ++ "\n```\n")) ++
  "\n\n"

/-- Embeds the user-about section, indentation quirks included
(src/chat/prompt.rs lines 204-212). -/
def userAboutSection (userName userAbout : String) : String :=
  "## " ++ userName ++ "\x27s About\n    " ++ userAbout ++ "\n\n    "

/-- Embeds `SystemPrompt` (src/chat/prompt.rs lines 7-10).  The `inner` string
is kept as the list of pieces pushed by `SystemPrompt::new`, in push order;
`toString` joins them into the rendered string. -/
structure SystemPrompt where
  sections : List String
  builder : SystemPromptBuilder

/-- Renders the prompt string, the concatenation of the pushed sections
(`SystemPrompt::to_string`, src/chat/prompt.rs lines 236-238). -/
def SystemPrompt.toString (p : SystemPrompt) : String :=
  String.join p.sections

/-- Maps an optional builder field to its section, mirroring the
`if let Some(x) = builder.x { prompt.push_str(...) }` pattern. -/
def optSection {α : Type} (f : α → String) : Option α → List String
  | some x => [f x]
  | none => []

/-- Embeds `SystemPrompt::new` (src/chat/prompt.rs lines 22-230): the fixed
header followed by each populated section in source push order.  The
long-term-memory section is additionally guarded by `!is_empty()`.  The
commented-out timezone section of the source is omitted.  The builder is
cloned into the result before its fields are consumed. -/
def SystemPrompt.new (b : SystemPromptBuilder) (recalling : Bool) : SystemPrompt :=
  { sections :=
      [headerSection b.chatbot_name b.user_name recalling]
      ++ optSection languageSection b.language
      ++ [aboutSection b.chatbot_name b.about]
      ++ optSection toneSection b.tone
      ++ optSection ageSection b.age
      ++ optSection likesSection b.likes
      ++ optSection dislikesSection b.dislikes
      ++ optSection historySection b.history
      ++ optSection goalsSection b.conversation_goals
      ++ optSection examplesSection b.conversational_examples
      ++ optSection contextSection b.context
      ++ (match b.long_term_memory with
          | some l => if l.isEmpty then [] else [ltmSection l]
          | none => [])
      ++ optSection (userAboutSection b.user_name) b.user_about
    builder := b }

/-- Embeds `SystemPromptBuilder::build` (src/chat/prompt.rs lines 456-639).
`timeStr` stands for the clock string the source formats from `Utc::now()`
(with or without a timezone); `lastMessageTime` and `now` are Unix seconds.
The source computes `time_since =
last_message_time.signed_duration_since(Utc::now())`, i.e. `lastMessageTime -
now`, then substitutes the four placeholders into every optional section —
`about` is never substituted — and hands the updated builder to
`SystemPrompt::new`. -/
def SystemPromptBuilder.build (b : SystemPromptBuilder)
    (lastMessageTime now : Int) (timeStr : String) (recalling : Bool) : SystemPrompt :=
  let timeSince := timeSinceString (lastMessageTime - now)
  let sub := substPlaceholders b.user_name b.chatbot_name timeStr timeSince
  SystemPrompt.new
    { b with
      tone := b.tone.map sub
      age := b.age.map sub
      likes := b.likes.map (List.map sub)
      dislikes := b.dislikes.map (List.map sub)
      history := b.history.map sub
      conversation_goals := b.conversation_goals.map (List.map sub)
      conversational_examples := b.conversational_examples.map (List.map sub)
      context := b.context.map (List.map sub)
      long_term_memory := b.long_term_memory.map (List.map sub)
      user_about := b.user_about.map sub
      language := b.language.map sub }
    recalling

/-- Embeds `ChatContext` (src/chat/context/context.rs lines 12-15): an
insertion-ordered `IndexMap<u64, Messages<ChatMessage>>` plus the system
prompt builder.  The map is kept as an association list in insertion order. -/
structure ChatContext where
  messages : List (Nat × Messages)
  system_prompt : SystemPromptBuilder

/-- Embeds `IndexMap::insert`: when the key is already present its value is
overwritten in place (the entry keeps its position in insertion order),
otherwise the new entry is appended at the end. -/
def insertIndexMap (k : Nat) (v : Messages) : List (Nat × Messages) → List (Nat × Messages)
  | [] => [(k, v)]
  | (k', v') :: rest =>
    if k' = k then (k, v) :: rest else (k', v') :: insertIndexMap k v rest

/-- Embeds `IndexMap::get`: the value stored at a key, if any. -/
def findIndexMap (k : Nat) : List (Nat × Messages) → Option Messages
  | [] => none
  | (k', v') :: rest => if k' = k then some v' else findIndexMap k rest

/-- Keys of the store, in insertion order. -/
def ChatContext.keys (c : ChatContext) : List Nat :=
  c.messages.map Prod.fst

/-- Embeds `ChatContext::add_message` (src/chat/context/context.rs lines
25-32): wraps the message into a fresh `Messages` slot via `Messages::new`
(the supplied identity or, absent one, a generated `fresh` identity) and
`IndexMap::insert`s it under that identity. -/
def ChatContext.add_message (c : ChatContext) (m : ChatMessage)
    (id : Option Nat) (fresh : Nat) : ChatContext :=
  let mm := Messages.new m id fresh
  { c with messages := insertIndexMap mm.id mm c.messages }

/-- Embeds `ChatContext::find` (src/chat/context/context.rs lines 56-58). -/
def ChatContext.find (c : ChatContext) (id : Nat) : Option Messages :=
  findIndexMap id c.messages

/-- Embeds `ChatContext::latest` (src/chat/context/context.rs lines 45-47):
the last entry of the insertion-ordered map. -/
def ChatContext.latest (c : ChatContext) : Option Messages :=
  (c.messages.getLast?).map Prod.snd

/-- Selected Variants of all Slots in insertion order, as collected at the
start of `get_context` (src/chat/context/context.rs lines 104-106). -/
def ChatContext.selectedList (c : ChatContext) : List ChatMessage :=
  c.messages.map (fun p => p.2.selected)

/-- Builds the synthetic system-role `ChatMessage` holding the rendered
prompt (src/chat/context/context.rs lines 90-94 and 132-136). -/
def systemMessage (content : String) : ChatMessage :=
  { defaultChatMessage with role := "system", content := content }

/-- Embeds `ChatContext::get_context` (src/chat/context/context.rs lines
78-143).  Returns the pair the source returns — the assembled context and the
optionally drained (evicted) Variants — together with the mutated store.
`now` and `timeStr` stand for `Utc::now()` and the formatted clock.  Note the
source collects the selected Variant of every Slot into the returned context
before draining, so drained Variants still appear in the returned context of
the call that evicted them. -/
def ChatContext.get_context (c : ChatContext) (recalling : Bool)
    (now : Int) (timeStr : String) :
    (List ChatMessage × Option (List ChatMessage)) × ChatContext :=
  if c.messages.isEmpty then
    (([systemMessage ((c.system_prompt.build now now timeStr recalling).toString)],
      none), c)
  else
    let ctx := c.selectedList
    let lastMessageTime := (ctx.getLast?.getD defaultChatMessage).sent_at
    if c.messages.length ≥ c.system_prompt.max_stm then
      let toRemove := c.messages.length - c.system_prompt.max_stm * 4 / 5
      ((systemMessage ((c.system_prompt.build lastMessageTime now timeStr recalling).toString)
          :: ctx,
        some ((c.messages.take toRemove).map (fun p => p.2.selected))),
       { c with messages := c.messages.drop toRemove })
    else
      ((systemMessage ((c.system_prompt.build lastMessageTime now timeStr recalling).toString)
          :: ctx,
        none), c)

/-- Predicate used by `get_regen_context`: `m.role == "assistant"`. -/
def isAssistantRole (m : ChatMessage) : Bool :=
  m.role == "assistant"

/-- Embeds `Iterator::rposition`: the index (from the front) of the last
element satisfying the predicate. -/
def rposLast (p : ChatMessage → Bool) : List ChatMessage → Option Nat
  | [] => none
  | a :: as =>
    match rposLast p as with
    | some i => some (i + 1)
    | none => if p a then some 0 else none

/-- Embeds `ChatContext::get_regen_context` (src/chat/context/context.rs
lines 146-163): `get_context`, then `Vec::remove` of the last
assistant-role entry of the returned context, when one exists. -/
def ChatContext.get_regen_context (c : ChatContext) (recalling : Bool)
    (now : Int) (timeStr : String) :
    (List ChatMessage × Option (List ChatMessage)) × ChatContext :=
  let r0 := c.get_context recalling now timeStr
  (((match rposLast isAssistantRole r0.1.1 with
     | some pos => r0.1.1.eraseIdx pos
     | none => r0.1.1),
    r0.1.2), r0.2)

/-- Modelled from the spec: `utils::time_to_string` (module `utils`, not among
the available sources) renders a `chrono::Duration` as natural language; its
exact wording is opaque to every claim and is modelled as the whole-second
count. -/
def time_to_string (secs : Int) : String :=
  toString secs ++ " seconds"

/-- Embeds the synthetic freewill user message body
(src/chat/context/context.rs lines 171-178). -/
def freewillText (t : String) : String :=
  "*it\x27s been around " ++ t ++
  " since you last said something, and the user did not respond. your next response should attempt to pull the user back into the conversation. please respond once again, making sure to keep the same tone and style as you normally would, following all previous instructions, yet keeping the time difference in mind. your response should only contain the actual response, not your thoughts or anything else.*\n\n\"...\""

/-- Embeds `ChatContext::time_since_last` (src/chat/context/context.rs lines
188-194): `Utc::now() - latest().selected().sent_at`, or an error when the
store is empty. -/
def ChatContext.time_since_last (c : ChatContext) (now : Int) : Except String Int :=
  match c.latest with
  | none => Except.error "Context is empty, nothing to freewill out of"
  | some last => Except.ok (now - last.selected.sent_at)

/-- Embeds `ChatContext::freewill_context` (src/chat/context/context.rs lines
165-186): `get_context` first (its store mutation persists even when the
subsequent step fails), then a synthetic id-less user-role message describing
the elapsed time since `latest()` — measured on the already-drained store —
is recorded via `add_message` and appended to the returned context.  The
result component is `Except` because `time_since_last` fails on an empty
store. -/
def ChatContext.freewill_context (c : ChatContext) (recalling : Bool)
    (now : Int) (timeStr : String) (fresh : Nat) :
    Except String (List ChatMessage × Option (List ChatMessage)) × ChatContext :=
  let r0 := c.get_context recalling now timeStr
  match r0.2.time_since_last now with
  | Except.error e => (Except.error e, r0.2)
  | Except.ok secs =>
    let message : ChatMessage :=
      { defaultChatMessage with
        role := "user"
        content := freewillText (time_to_string secs) }
    (Except.ok (r0.1.1 ++ [message], r0.1.2), r0.2.add_message message none fresh)

/-- Embeds the two fields of `UserPrompt` (src/chat/context, sources not
available beyond their use) that `rag_recall` reads and writes: the optional
query text and the recalled-memories list. -/
structure UserPrompt where
  content : Option String
  relevant_memories : List String
deriving DecidableEq

/-- Embeds the payload returned by the vector-store search
(src/chat/archive/storage.rs `Memory`, used through its `content` field). -/
structure Memory where
  content : String
deriving DecidableEq

/-- Embeds `CompletionAgent::rag_recall` (src/chat/client/agent.rs lines
296-333).  The embedding collaborator `embed` and the vector-store search
`search` (taking the embedded vector, the user identity and the limit) are
explicit parameters; the source passes `self.user_id` and limit `5`.  The
returned flag records whether the embedding collaborator was invoked; the
source returns early — before embedding — only when `prompt.content` is
`None`.  Recalled memories have the `<user>`/`<assistant>` placeholder tokens
replaced by the session display names and, when non-empty, extend
`prompt.relevant_memories`. -/
def rag_recall {Vec : Type} (embed : String → Vec)
    (search : Vec → Nat → Nat → List Memory)
    (user_id : Nat) (user_name assistant_name : String)
    (prompt : UserPrompt) : UserPrompt × Bool :=
  match prompt.content with
  | none => (prompt, false)
  | some message =>
    let vec := embed message
    let recalled := (search vec user_id 5).map (fun x =>
      strReplace (strReplace x.content "<user>" user_name) "<assistant>" assistant_name)
    (if recalled.isEmpty then prompt
     else { prompt with relevant_memories := prompt.relevant_memories ++ recalled },
     true)

/-- Builder used by the concrete long-term-memory statements: `max_ltm = 3`,
existing memory list `["a", "b"]`. -/
def ltmExampleBuilder : SystemPromptBuilder :=
  { SystemPromptBuilder.new "Bot" "Alice" "about text" 3 50 with
    long_term_memory := some ["a", "b"] }

/-- C5: with `max_ltm = 3` and an existing long-term-memory list
`["a", "b"]`, `add_long_term_memories ["c", "d"]` yields exactly
`["b", "c", "d"]` — the oldest fact `"a"` is evicted to fit. -/
theorem c5_bulk_add_evicts_oldest_to_fit :
    ltmExampleBuilder.add_long_term_memories ["c", "d"] =
      some { ltmExampleBuilder with long_term_memory := some ["b", "c", "d"] } := by
  decide

/-- Helper: dropping from the front of an append, when the drop stays inside
the first list. -/
theorem drop_append_of_le_length {α : Type} {l₁ l₂ : List α} {n : Nat}
    (h : n ≤ l₁.length) : (l₁ ++ l₂).drop n = l₁.drop n ++ l₂ := by
  induction l₁ generalizing n with
  | nil => simp at h; simp [h]
  | cons a as ih =>
    cases n with
    | zero => simp
    | succ m => simpa using ih (Nat.le_of_succ_le_succ h)

/-- C4 (amended): provided the long-term-memory list is already set and within
the `max_ltm` bound, whichever of `add_long_term_memory` /
`add_long_term_memories` returns (does not panic) leaves a list holding at
most `max_ltm` facts, equal to the concatenation of the old list and the new
facts with the excess dropped from the front — the oldest previously-added
facts are evicted first (FIFO).  (The unamended claim fails for a bulk add
into an unset list, which installs the batch with no bound check.) -/
theorem c4_ltm_bound_and_fifo (b : SystemPromptBuilder) (l : List String)
    (hb : b.long_term_memory = some l) (hlen : l.length ≤ b.max_ltm) :
    (∀ x b', b.add_long_term_memory x = some b' →
       b'.long_term_memory = some ((l ++ [x]).drop ((l.length + 1) - b.max_ltm)) ∧
       ((l ++ [x]).drop ((l.length + 1) - b.max_ltm)).length ≤ b.max_ltm) ∧
    (∀ ns b', b.add_long_term_memories ns = some b' →
       b'.long_term_memory = some ((l ++ ns).drop ((l.length + ns.length) - b.max_ltm)) ∧
       ((l ++ ns).drop ((l.length + ns.length) - b.max_ltm)).length ≤ b.max_ltm) := by
  constructor
  · intro x b' h
    simp only [SystemPromptBuilder.add_long_term_memory, hb] at h
    by_cases hover : l.length + 1 > b.max_ltm
    · rw [if_pos hover] at h
      cases l with
      | nil => exact absurd h (by simp)
      | cons a rest =>
        simp only [Option.some.injEq] at h
        subst h
        have hmax : rest.length + 1 = b.max_ltm := by
          simp at hlen hover; omega
        have hk : (a :: rest).length + 1 - b.max_ltm = 1 := by
          simp; omega
        rw [hk]
        refine ⟨by simp, ?_⟩
        simp
        omega
    · rw [if_neg hover] at h
      simp only [Option.some.injEq] at h
      subst h
      have hk : l.length + 1 - b.max_ltm = 0 := by omega
      rw [hk]
      refine ⟨by simp, ?_⟩
      simp
      omega
  · intro ns b' h
    simp only [SystemPromptBuilder.add_long_term_memories, hb] at h
    rw [if_neg (by omega)] at h
    by_cases hover : ns.length + l.length > b.max_ltm
    · rw [if_pos hover] at h
      by_cases hpanic : ns.length + l.length - b.max_ltm > l.length
      · rw [if_pos hpanic] at h
        exact absurd h (by simp)
      · rw [if_neg hpanic] at h
        simp only [Option.some.injEq] at h
        subst h
        have hk : l.length + ns.length - b.max_ltm = ns.length + l.length - b.max_ltm := by
          omega
        rw [hk, drop_append_of_le_length (by omega)]
        refine ⟨by simp, ?_⟩
        simp
        omega
    · rw [if_neg hover] at h
      simp only [Option.some.injEq] at h
      subst h
      have hk : l.length + ns.length - b.max_ltm = 0 := by omega
      rw [hk]
      refine ⟨by simp, ?_⟩
      simp
      omega

/-- Witness for the amended C4 theorem at `max_ltm = 3`, existing list
`["a", "b"]`. -/
theorem c4_ltm_bound_and_fifo_witness :
    ltmExampleBuilder.long_term_memory = some ["a", "b"] ∧
    (["a", "b"] : List String).length ≤ ltmExampleBuilder.max_ltm ∧
    ((∀ x b', ltmExampleBuilder.add_long_term_memory x = some b' →
       b'.long_term_memory =
         some (((["a", "b"] : List String) ++ [x]).drop ((2 + 1) - ltmExampleBuilder.max_ltm)) ∧
       ((((["a", "b"] : List String)) ++ [x]).drop ((2 + 1) - ltmExampleBuilder.max_ltm)).length ≤
         ltmExampleBuilder.max_ltm) ∧
     (∀ ns b', ltmExampleBuilder.add_long_term_memories ns = some b' →
       b'.long_term_memory =
         some (((["a", "b"] : List String) ++ ns).drop ((2 + ns.length) - ltmExampleBuilder.max_ltm)) ∧
       ((((["a", "b"] : List String)) ++ ns).drop ((2 + ns.length) - ltmExampleBuilder.max_ltm)).length ≤
         ltmExampleBuilder.max_ltm)) :=
  ⟨rfl, by decide, c4_ltm_bound_and_fifo ltmExampleBuilder ["a", "b"] rfl (by decide)⟩

/-- Counterexample to C4 as stated: with `max_ltm = 3` and the long-term
memory still unset, `add_long_term_memories ["a", "b", "c", "d"]` installs all
four facts — the resulting list exceeds `max_ltm`. -/
theorem c4_counterexample_unset_list_unbounded :
    (SystemPromptBuilder.new "Bot" "Alice" "about text" 3 50).add_long_term_memories
        ["a", "b", "c", "d"] =
      some { SystemPromptBuilder.new "Bot" "Alice" "about text" 3 50 with
             long_term_memory := some ["a", "b", "c", "d"] } ∧
    (SystemPromptBuilder.new "Bot" "Alice" "about text" 3 50).max_ltm <
      (["a", "b", "c", "d"] : List String).length := by
  decide

/-- C10 (amended): `add_long_term_memories` never panics provided the batch
holds at most `max_ltm` facts: then the eviction drain range cannot exceed the
existing list length.  (The unamended claim fails for a batch larger than
`max_ltm` added to a set, shorter existing list.) -/
theorem c10_bulk_add_total_for_small_batches (b : SystemPromptBuilder)
    (ns : List String) (h : ns.length ≤ b.max_ltm) :
    (b.add_long_term_memories ns).isSome = true := by
  cases hb : b.long_term_memory with
  | none => simp [SystemPromptBuilder.add_long_term_memories, hb]
  | some l =>
    simp only [SystemPromptBuilder.add_long_term_memories, hb]
    by_cases hfull : l.length > b.max_ltm
    · rw [if_pos hfull]
      simp
    · rw [if_neg hfull]
      by_cases hover : ns.length + l.length > b.max_ltm
      · rw [if_pos hover, if_neg (by omega)]
        simp
      · rw [if_neg hover]
        simp

/-- Witness for the amended C10 theorem. -/
theorem c10_bulk_add_total_for_small_batches_witness :
    (["x"] : List String).length ≤ ltmExampleBuilder.max_ltm ∧
    (ltmExampleBuilder.add_long_term_memories ["x"]).isSome = true :=
  ⟨by decide, c10_bulk_add_total_for_small_batches ltmExampleBuilder ["x"] (by decide)⟩

/-- Counterexample to C10 as stated: with `max_ltm = 3`, an existing list
`["a"]` and a batch of four facts, the drain range `0..(5 - 3)` exceeds the
existing list length `1`, so `Vec::drain` panics — modelled as `none`. -/
theorem c10_counterexample_drain_out_of_range :
    ({ SystemPromptBuilder.new "Bot" "Alice" "about text" 3 50 with
       long_term_memory := some ["a"] } :
        SystemPromptBuilder).add_long_term_memories ["b", "c", "d", "e"] = none := by
  decide

/-- Builder probing the rendered elapsed-time string through the
`{time_since}` placeholder in its tone section. -/
def timeProbeBuilder : SystemPromptBuilder :=
  { SystemPromptBuilder.new "Bot" "Alice" "about text" 3 50 with
    tone := some "{time_since}" }

/-- Counterexample to C3 as stated: `build` subtracts in the wrong order
(`last_message_time.signed_duration_since(Utc::now())`), so every past
`last_message_time` produces a negative delta that skips the seconds, minutes
and hours arms.  With `now = 1000`: an elapsed time of 45 seconds renders
"0 day" (claim: "45 seconds"), 1 minute renders "0 day" (claim: "1 minute"),
90 minutes renders "0 day" (claim: "90 minutes" — which also contradicts the
claimed under-24-hours-means-hours rule), and 25 hours renders "-1 day"
(claim: "1 day"). -/
theorem c3_counterexample_past_elapsed_renders_days :
    ((timeProbeBuilder.build 955 1000 "clock" false).builder.tone = some "0 day") ∧
    ((timeProbeBuilder.build 940 1000 "clock" false).builder.tone = some "0 day") ∧
    ((timeProbeBuilder.build (-4400) 1000 "clock" false).builder.tone = some "0 day") ∧
    ((timeProbeBuilder.build (-89000) 1000 "clock" false).builder.tone = some "-1 day") ∧
    ("0 day" : String) ≠ "45 seconds" ∧ ("0 day" : String) ≠ "1 minute" ∧
    ("0 day" : String) ≠ "90 minutes" ∧ ("-1 day" : String) ≠ "1 day" := by
  decide

/-- C3 (amended): the elapsed-time string is computed from the delta
`last_message_time - now`; for every strictly past `last_message_time` that
delta is negative, misses the `0..=59`, `60..=3599` and `3600..=86399` arms,
and is always phrased by the days arm with division truncating toward zero —
"0 day" for anything under a day ago, "-1 day" for 25 hours ago.  (For
nonnegative deltas the arms do implement the claimed thresholds — see the
positive-delta evaluations in the counterexample record — but no past time
ever reaches them.) -/
theorem c3_past_elapsed_always_days_arm (lastMessageTime now : Int)
    (h : lastMessageTime < now) :
    timeSinceString (lastMessageTime - now) =
      toString (Int.tdiv (lastMessageTime - now) 86400) ++ " day" ++
        (if 1 < Int.tdiv (lastMessageTime - now) 86400 then "s" else "") := by
  rw [timeSinceString, if_neg (by omega), if_neg (by omega), if_neg (by omega)]

/-- Witness for the amended C3 theorem at `last_message_time = 955`,
`now = 1000` (45 seconds elapsed). -/
theorem c3_past_elapsed_always_days_arm_witness :
    (955 : Int) < 1000 ∧
    timeSinceString (955 - 1000) =
      toString (Int.tdiv ((955 : Int) - 1000) 86400) ++ " day" ++
        (if 1 < Int.tdiv ((955 : Int) - 1000) 86400 then "s" else "") :=
  ⟨by decide, c3_past_elapsed_always_days_arm 955 1000 (by decide)⟩

/-- C9 (amended): `build` substitutes the `{user}`, `{bot}`, `{time}` and
`{time_since}` placeholders into every optional textual section — tone, age,
likes, dislikes, history, conversation goals, conversational examples,
context, long-term memory, user profile and language — before handing the
builder to `SystemPrompt::new` for concatenation, but the persona/about text
is passed through verbatim, never substituted.  The final conjunct records
that the concatenated output is exactly the rendering of that substituted
builder. -/
theorem c9_substitutes_all_sections_except_about (b : SystemPromptBuilder)
    (lastMessageTime now : Int) (timeStr : String) (recalling : Bool) :
    (b.build lastMessageTime now timeStr recalling).builder.tone =
        b.tone.map (substPlaceholders b.user_name b.chatbot_name timeStr
          (timeSinceString (lastMessageTime - now))) ∧
    (b.build lastMessageTime now timeStr recalling).builder.age =
        b.age.map (substPlaceholders b.user_name b.chatbot_name timeStr
          (timeSinceString (lastMessageTime - now))) ∧
    (b.build lastMessageTime now timeStr recalling).builder.likes =
        b.likes.map (List.map (substPlaceholders b.user_name b.chatbot_name timeStr
          (timeSinceString (lastMessageTime - now)))) ∧
    (b.build lastMessageTime now timeStr recalling).builder.dislikes =
        b.dislikes.map (List.map (substPlaceholders b.user_name b.chatbot_name timeStr
          (timeSinceString (lastMessageTime - now)))) ∧
    (b.build lastMessageTime now timeStr recalling).builder.history =
        b.history.map (substPlaceholders b.user_name b.chatbot_name timeStr
          (timeSinceString (lastMessageTime - now))) ∧
    (b.build lastMessageTime now timeStr recalling).builder.conversation_goals =
        b.conversation_goals.map (List.map (substPlaceholders b.user_name b.chatbot_name timeStr
          (timeSinceString (lastMessageTime - now)))) ∧
    (b.build lastMessageTime now timeStr recalling).builder.conversational_examples =
        b.conversational_examples.map (List.map (substPlaceholders b.user_name b.chatbot_name timeStr
          (timeSinceString (lastMessageTime - now)))) ∧
    (b.build lastMessageTime now timeStr recalling).builder.context =
        b.context.map (List.map (substPlaceholders b.user_name b.chatbot_name timeStr
          (timeSinceString (lastMessageTime - now)))) ∧
    (b.build lastMessageTime now timeStr recalling).builder.long_term_memory =
        b.long_term_memory.map (List.map (substPlaceholders b.user_name b.chatbot_name timeStr
          (timeSinceString (lastMessageTime - now)))) ∧
    (b.build lastMessageTime now timeStr recalling).builder.user_about =
        b.user_about.map (substPlaceholders b.user_name b.chatbot_name timeStr
          (timeSinceString (lastMessageTime - now))) ∧
    (b.build lastMessageTime now timeStr recalling).builder.language =
        b.language.map (substPlaceholders b.user_name b.chatbot_name timeStr
          (timeSinceString (lastMessageTime - now))) ∧
    (b.build lastMessageTime now timeStr recalling).builder.about = b.about ∧
    b.build lastMessageTime now timeStr recalling =
      SystemPrompt.new (b.build lastMessageTime now timeStr recalling).builder recalling :=
  ⟨rfl, rfl, rfl, rfl, rfl, rfl, rfl, rfl, rfl, rfl, rfl, rfl, rfl⟩

/-- Builder whose persona/about text contains the `{user}` placeholder. -/
def aboutProbeBuilder : SystemPromptBuilder :=
  SystemPromptBuilder.new "Bot" "Alice" "hi {user}" 3 50

/-- Counterexample to C9 as stated: the persona/about section reaches the
concatenated output with the `{user}` placeholder intact (the section at
index 1, right after the fixed header), even though substituting it would
have produced "hi Alice". -/
theorem c9_counterexample_about_kept_verbatim :
    ((aboutProbeBuilder.build 0 0 "clock" false).sections.get? 1 =
      some "## About Bot\nhi {user}\n\n") ∧
    substPlaceholders aboutProbeBuilder.user_name aboutProbeBuilder.chatbot_name "clock"
        (timeSinceString (0 - 0)) "hi {user}" = "hi Alice" ∧
    ("## About Bot\nhi {user}\n\n" : String) ≠ "## About Bot\nhi Alice\n\n" := by
  decide

/-- C6 (amended): `rag_recall` returns without invoking the embedding
collaborator exactly when the query text is absent (`None`); any present
query text — the empty string included — is embedded, searched in the vector
store scoped to the user with limit 5, and the recalled facts are appended
with the `<user>`/`<assistant>` placeholder tokens replaced by the session
display names.  (The unamended claim also promised the fast path for an
empty-but-present query text; the source only tests for absence.) -/
theorem c6_recall_fast_path_only_on_absent_query {Vec : Type}
    (embed : String → Vec) (search : Vec → Nat → Nat → List Memory)
    (user_id : Nat) (user_name assistant_name : String) (p : UserPrompt) :
    (p.content = none →
       rag_recall embed search user_id user_name assistant_name p = (p, false)) ∧
    (∀ s, p.content = some s →
       rag_recall embed search user_id user_name assistant_name p =
         ({ p with relevant_memories := p.relevant_memories ++
              (search (embed s) user_id 5).map (fun x =>
                strReplace (strReplace x.content "<user>" user_name)
                  "<assistant>" assistant_name) }, true)) := by
  constructor
  · intro h
    simp only [rag_recall, h]
  · intro s h
    simp only [rag_recall, h]
    by_cases hemp :
        ((search (embed s) user_id 5).map (fun x =>
          strReplace (strReplace x.content "<user>" user_name)
            "<assistant>" assistant_name)).isEmpty
    · rw [if_pos hemp]
      rw [List.isEmpty_iff] at hemp
      rw [hemp]
      simp only [List.append_nil]
      rw [← h]
    · rw [if_neg hemp]

/-- Witness for the amended C6 theorem: absent query text returns the prompt
untouched with the embedding collaborator not invoked, and a present query
text flows through embedding, user-scoped search and placeholder
replacement. -/
theorem c6_recall_fast_path_only_on_absent_query_witness :
    ({ content := none, relevant_memories := [] } : UserPrompt).content = none ∧
    rag_recall (fun s => s.length) (fun _ _ _ => [{ content := "likes <user>" }]) 1
        "Alice" "Bot" { content := none, relevant_memories := [] } =
      ({ content := none, relevant_memories := [] }, false) ∧
    ({ content := some "hello", relevant_memories := [] } : UserPrompt).content =
      some "hello" ∧
    rag_recall (fun s => s.length) (fun _ _ _ => [{ content := "likes <user>" }]) 1
        "Alice" "Bot" { content := some "hello", relevant_memories := [] } =
      ({ content := some "hello", relevant_memories := ["likes Alice"] }, true) :=
  ⟨rfl,
   (c6_recall_fast_path_only_on_absent_query (fun s => s.length)
     (fun _ _ _ => [{ content := "likes <user>" }]) 1 "Alice" "Bot"
     { content := none, relevant_memories := [] }).1 rfl,
   rfl,
   (c6_recall_fast_path_only_on_absent_query (fun s => s.length)
     (fun _ _ _ => [{ content := "likes <user>" }]) 1 "Alice" "Bot"
     { content := some "hello", relevant_memories := [] }).2 "hello" rfl⟩

/-- Counterexample to C6 as stated: a prompt whose query text is present but
empty does invoke the embedding collaborator (flag `true`) and does return
recalled facts, instead of fast-returning an empty fact list. -/
theorem c6_counterexample_empty_query_is_embedded :
    rag_recall (fun s => s.length) (fun _ _ _ => [{ content := "likes <user>" }]) 1
        "Alice" "Bot" { content := some "", relevant_memories := [] } =
      ({ content := some "", relevant_memories := ["likes Alice"] }, true) := by
  decide

/-- Helper: inserting an already-present key leaves the insertion-ordered key
sequence unchanged (`IndexMap::insert` keeps the entry position). -/
theorem insertIndexMap_keys_of_mem (k : Nat) (v : Messages)
    (l : List (Nat × Messages)) (h : k ∈ l.map Prod.fst) :
    (insertIndexMap k v l).map Prod.fst = l.map Prod.fst := by
  induction l with
  | nil => simp at h
  | cons p rest ih =>
    obtain ⟨k', v'⟩ := p
    by_cases hp : k' = k
    · simp [insertIndexMap, hp]
    · simp only [List.map_cons, List.mem_cons] at h
      rcases h with h | h
      · exact absurd h.symm hp
      · simp [insertIndexMap, hp, ih h]

/-- Helper: looking up the just-inserted key returns the just-inserted
value. -/
theorem findIndexMap_insert_self (k : Nat) (v : Messages)
    (l : List (Nat × Messages)) :
    findIndexMap k (insertIndexMap k v l) = some v := by
  induction l with
  | nil => simp [insertIndexMap, findIndexMap]
  | cons p rest ih =>
    obtain ⟨k', v'⟩ := p
    by_cases hp : k' = k
    · simp [insertIndexMap, hp, findIndexMap]
    · simp [insertIndexMap, hp, findIndexMap, ih]

/-- Helper: looking up any other key is unaffected by an insert. -/
theorem findIndexMap_insert_ne (k j : Nat) (v : Messages)
    (l : List (Nat × Messages)) (h : j ≠ k) :
    findIndexMap j (insertIndexMap k v l) = findIndexMap j l := by
  induction l with
  | nil => simp [insertIndexMap, findIndexMap, Ne.symm h]
  | cons p rest ih =>
    obtain ⟨k', v'⟩ := p
    by_cases hp : k' = k
    · subst hp
      simp [insertIndexMap, findIndexMap, Ne.symm h]
    · simp [insertIndexMap, hp, findIndexMap, ih]

/-- C2 (amended): `add_message` with an already-present Slot identity
replaces the stored Slot by a fresh one holding only the new Variant with the
cursor reset to 0 — the previously stored Variants are discarded, not
preserved — while the Slot keeps its position in insertion order and every
other Slot is untouched. -/
theorem c2_add_message_replaces_existing_slot (c : ChatContext)
    (m : ChatMessage) (i fresh : Nat) (h : i ∈ c.keys) :
    (c.add_message m (some i) fresh).keys = c.keys ∧
    (c.add_message m (some i) fresh).find i = some (Messages.new m (some i) fresh) ∧
    (Messages.new m (some i) fresh).msgs = [m] ∧
    (Messages.new m (some i) fresh).cursor = 0 ∧
    (∀ j, j ≠ i → (c.add_message m (some i) fresh).find j = c.find j) := by
  refine ⟨?_, ?_, rfl, rfl, ?_⟩
  · exact insertIndexMap_keys_of_mem i _ c.messages h
  · exact findIndexMap_insert_self i _ c.messages
  · intro j hj
    exact findIndexMap_insert_ne i j _ c.messages hj

/-- Store used by the concrete C2 statements: Slot 5 holds one assistant
Variant. -/
def c2Store : ChatContext :=
  { messages :=
      [(5, { msgs := [{ role := "assistant", content := "v1", sent_at := 5 }],
             cursor := 0, id := 5 })]
    system_prompt := SystemPromptBuilder.new "Bot" "Alice" "about text" 3 50 }

/-- New Variant appended under the already-present identity 5. -/
def c2NewMsg : ChatMessage :=
  { role := "assistant", content := "v2", sent_at := 6 }

/-- Witness for the amended C2 theorem: a store holding Slot 5 with one
assistant Variant, appended to with identity 5. -/
theorem c2_add_message_replaces_existing_slot_witness :
    (5 : Nat) ∈ c2Store.keys ∧
    (c2Store.add_message c2NewMsg (some 5) 99).find 5 =
      some (Messages.new c2NewMsg (some 5) 99) :=
  ⟨by decide,
   (c2_add_message_replaces_existing_slot c2Store c2NewMsg 5 99 (by decide)).2.1⟩

/-- Counterexample to C2 as stated: after `add_message` with the
already-present identity 5, the stored Slot holds only the new Variant with
cursor 0; it does not hold both Variants with the cursor on the new last
index as the claim requires. -/
theorem c2_counterexample_previous_variants_lost :
    (c2Store.add_message c2NewMsg (some 5) 99).find 5 =
      some { msgs := [c2NewMsg], cursor := 0, id := 5 } ∧
    ¬ ((c2Store.add_message c2NewMsg (some 5) 99).find 5 =
        some { msgs := [{ role := "assistant", content := "v1", sent_at := 5 },
                        c2NewMsg],
               cursor := 1, id := 5 }) := by
  decide

/-- Unfolding characterization of `get_context` on an empty store: a single
system message rendered at the current time, no eviction, store untouched. -/
theorem get_context_empty_eq (c : ChatContext) (r : Bool) (now : Int) (ts : String)
    (he : c.messages = []) :
    c.get_context r now ts =
      (([systemMessage ((c.system_prompt.build now now ts r).toString)], none), c) := by
  simp only [ChatContext.get_context]
  rw [if_pos (by simp [List.isEmpty_iff, he])]

/-- Unfolding characterization of `get_context` on a nonempty store whose
length has reached `max_stm`: the context is the system message followed by
every selected Variant, the oldest `len - max_stm * 4 / 5` Slots are drained
and their selected Variants returned. -/
theorem get_context_full_eq (c : ChatContext) (r : Bool) (now : Int) (ts : String)
    (hne : c.messages ≠ [])
    (hge : c.messages.length ≥ c.system_prompt.max_stm) :
    c.get_context r now ts =
      ((systemMessage ((c.system_prompt.build
            ((c.selectedList.getLast?.getD defaultChatMessage).sent_at) now ts r).toString)
          :: c.selectedList,
        some ((c.messages.take
          (c.messages.length - c.system_prompt.max_stm * 4 / 5)).map
            (fun p => p.2.selected))),
       { c with
         messages :=
           c.messages.drop (c.messages.length - c.system_prompt.max_stm * 4 / 5) }) := by
  simp only [ChatContext.get_context]
  rw [if_neg (by simp [List.isEmpty_iff, hne]), if_pos hge]

/-- Unfolding characterization of `get_context` on a nonempty store strictly
below `max_stm`: no eviction, store untouched. -/
theorem get_context_small_eq (c : ChatContext) (r : Bool) (now : Int) (ts : String)
    (hne : c.messages ≠ [])
    (hlt : c.messages.length < c.system_prompt.max_stm) :
    c.get_context r now ts =
      ((systemMessage ((c.system_prompt.build
            ((c.selectedList.getLast?.getD defaultChatMessage).sent_at) now ts r).toString)
          :: c.selectedList,
        none), c) := by
  simp only [ChatContext.get_context]
  rw [if_neg (by simp [List.isEmpty_iff, hne]), if_neg (by omega)]

/-- C1 (amended): for every nonempty Branch Store with
`store.len() >= max_stm`, `get_context` evicts exactly
`store.len() - max_stm * 4 / 5` Slots, the oldest first in insertion order,
returning their selected Variants as the evicted list and leaving
`max_stm * 4 / 5` Slots in the store; with `store.len() < max_stm` nothing is
evicted and the evicted list is absent.  (The unamended claim fails only in
the corner `max_stm = 0` with an empty store, where `store.len() >= max_stm`
holds but the empty-store branch returns no evicted list.) -/
theorem c1_assemble_evicts_to_four_fifths (c : ChatContext) (r : Bool)
    (now : Int) (ts : String) :
    (c.messages ≠ [] → c.messages.length ≥ c.system_prompt.max_stm →
       (c.get_context r now ts).1.2 =
         some ((c.messages.take
           (c.messages.length - c.system_prompt.max_stm * 4 / 5)).map
             (fun p => p.2.selected)) ∧
       (((c.get_context r now ts).1.2).getD []).length =
         c.messages.length - c.system_prompt.max_stm * 4 / 5 ∧
       (c.get_context r now ts).2.messages =
         c.messages.drop (c.messages.length - c.system_prompt.max_stm * 4 / 5) ∧
       (c.get_context r now ts).2.messages.length =
         c.system_prompt.max_stm * 4 / 5) ∧
    (c.messages.length < c.system_prompt.max_stm →
       (c.get_context r now ts).1.2 = none ∧
       (c.get_context r now ts).2 = c) := by
  constructor
  · intro hne hge
    rw [get_context_full_eq c r now ts hne hge]
    refine ⟨rfl, ?_, rfl, ?_⟩
    · have hlen : c.messages.length ≠ 0 :=
        fun h0 => hne (List.length_eq_zero.mp h0)
      simp [List.length_take, List.length_map]
    · simp [List.length_drop]
      omega
  · intro hlt
    rcases em (c.messages = []) with he | hne
    · rw [get_context_empty_eq c r now ts he]
      exact ⟨rfl, rfl⟩
    · rw [get_context_small_eq c r now ts hne hlt]
      exact ⟨rfl, rfl⟩

/-- Store with 60 single-Variant Slots under `max_stm = 50` used by the C1
witness. -/
def store60 : ChatContext :=
  { messages := (List.range 60).map (fun i =>
      (i, { msgs := [{ role := "user", content := "m", sent_at := 0 }],
            cursor := 0, id := i }))
    system_prompt := SystemPromptBuilder.new "Bot" "Alice" "about text" 3 50 }

/-- Witness for the amended C1 theorem at `max_stm = 50` with 60 Slots:
exactly `60 - 40 = 20` Slots are evicted and 40 remain. -/
theorem c1_assemble_evicts_to_four_fifths_witness :
    store60.messages ≠ [] ∧
    store60.messages.length ≥ store60.system_prompt.max_stm ∧
    ((store60.get_context false 0 "clock").1.2 =
       some ((store60.messages.take 20).map (fun p => p.2.selected)) ∧
     (((store60.get_context false 0 "clock").1.2).getD []).length = 20 ∧
     (store60.get_context false 0 "clock").2.messages = store60.messages.drop 20 ∧
     (store60.get_context false 0 "clock").2.messages.length = 40) :=
  ⟨by decide, by decide,
   (c1_assemble_evicts_to_four_fifths store60 false 0 "clock").1 (by decide) (by decide)⟩

/-- Empty store configured with `max_stm = 0`, the corner refuting C1 as
stated. -/
def c1EmptyZeroStore : ChatContext :=
  { messages := []
    system_prompt := SystemPromptBuilder.new "Bot" "Alice" "about text" 3 0 }

/-- Counterexample to C1 as stated: with `max_stm = 0` and an empty store,
`store.len() >= max_stm` holds, yet the evicted list is absent (`None`)
rather than present with `0 - 0 = 0` entries. -/
theorem c1_counterexample_empty_store_zero_max_stm :
    c1EmptyZeroStore.messages.length ≥ c1EmptyZeroStore.system_prompt.max_stm ∧
    (c1EmptyZeroStore.get_context false 0 "clock").1.2 = none := by
  exact ⟨by decide, rfl⟩

/-- Helper: when `rposition` finds an index, the element there satisfies the
predicate. -/
theorem rposLast_some (p : ChatMessage → Bool) (l : List ChatMessage) (i : Nat)
    (h : rposLast p l = some i) : ∃ e, l.get? i = some e ∧ p e = true := by
  induction l generalizing i with
  | nil => simp [rposLast] at h
  | cons a as ih =>
    simp only [rposLast] at h
    cases hr : rposLast p as with
    | some j =>
      rw [hr] at h
      simp only [Option.some.injEq] at h
      subst h
      obtain ⟨e, he, hp⟩ := ih j hr
      exact ⟨e, by simpa using he, hp⟩
    | none =>
      rw [hr] at h
      by_cases hp : p a
      · rw [if_pos hp] at h
        simp only [Option.some.injEq] at h
        subst h
        exact ⟨a, rfl, hp⟩
      · rw [if_neg hp] at h
        cases h

/-- Helper: every assistant-role element of the assembled context is either a
selected Variant still in the (possibly drained) store or one of the evicted
Variants.  (The prepended system message has role "system".) -/
theorem get_context_assistant_mem (c : ChatContext) (r : Bool) (now : Int)
    (ts : String) (e : ChatMessage) (he : e ∈ (c.get_context r now ts).1.1)
    (hrole : isAssistantRole e = true) :
    e ∈ (c.get_context r now ts).2.selectedList ∨
      e ∈ ((c.get_context r now ts).1.2).getD [] := by
  have hsys : ∀ s, isAssistantRole (systemMessage s) = false := fun _ => rfl
  rcases em (c.messages = []) with hE | hne
  · rw [get_context_empty_eq c r now ts hE] at he ⊢
    simp only [List.mem_singleton] at he
    subst he
    rw [hsys] at hrole
    cases hrole
  · rcases em (c.messages.length ≥ c.system_prompt.max_stm) with hge | hlt
    · rw [get_context_full_eq c r now ts hne hge] at he ⊢
      simp only [List.mem_cons] at he
      rcases he with he | he
      · subst he
        rw [hsys] at hrole
        cases hrole
      · have hsplit : c.selectedList =
            (c.messages.take
                (c.messages.length - c.system_prompt.max_stm * 4 / 5)).map
              (fun p => p.2.selected) ++
            (c.messages.drop
                (c.messages.length - c.system_prompt.max_stm * 4 / 5)).map
              (fun p => p.2.selected) := by
          rw [ChatContext.selectedList, ← List.map_append, List.take_append_drop]
        rw [hsplit] at he
        rcases List.mem_append.mp he with h1 | h2
        · right
          simpa using h1
        · left
          simpa [ChatContext.selectedList] using h2
    · rw [get_context_small_eq c r now ts hne (by omega)] at he ⊢
      simp only [List.mem_cons] at he
      rcases he with he | he
      · subst he
        rw [hsys] at hrole
        cases hrole
      · left
        exact he

/-- C7 (amended): `get_regen_context` forwards the evicted list and the
mutated store of `get_context` unchanged and returns the same message
sequence except that the entry at the last assistant-role position is removed
(nothing is removed when no assistant-role entry exists); the removed Variant
is an assistant-role Variant that is either still a selected Variant of the
store or — when the STM trim of this very call evicted its Slot — a member of
the returned evicted list.  (The unamended claim asserts it always remains in
the store.) -/
theorem c7_regen_strips_last_assistant (c : ChatContext) (r : Bool)
    (now : Int) (ts : String) :
    (c.get_regen_context r now ts).2 = (c.get_context r now ts).2 ∧
    (c.get_regen_context r now ts).1.2 = (c.get_context r now ts).1.2 ∧
    (rposLast isAssistantRole (c.get_context r now ts).1.1 = none →
       (c.get_regen_context r now ts).1.1 = (c.get_context r now ts).1.1) ∧
    (∀ pos, rposLast isAssistantRole (c.get_context r now ts).1.1 = some pos →
       (c.get_regen_context r now ts).1.1 =
         ((c.get_context r now ts).1.1).eraseIdx pos ∧
       ∃ e, ((c.get_context r now ts).1.1).get? pos = some e ∧
         isAssistantRole e = true ∧
         (e ∈ (c.get_context r now ts).2.selectedList ∨
          e ∈ ((c.get_context r now ts).1.2).getD [])) := by
  refine ⟨rfl, rfl, ?_, ?_⟩
  · intro h
    simp only [ChatContext.get_regen_context, h]
  · intro pos h
    refine ⟨by simp only [ChatContext.get_regen_context, h], ?_⟩
    obtain ⟨e, hget, hp⟩ := rposLast_some _ _ _ h
    exact ⟨e, hget, hp,
      get_context_assistant_mem c r now ts e (List.get?_mem hget) hp⟩

/-- Store with a user Slot then an assistant Slot, below `max_stm`, used by
the C7 witness. -/
def c7Store : ChatContext :=
  { messages :=
      [(1, { msgs := [{ role := "user", content := "hi", sent_at := 10 }],
             cursor := 0, id := 1 }),
       (2, { msgs := [{ role := "assistant", content := "yo", sent_at := 20 }],
             cursor := 0, id := 2 })]
    system_prompt := SystemPromptBuilder.new "Bot" "Alice" "about text" 3 50 }

/-- Witness for the amended C7 theorem: the last assistant-role entry sits at
index 2 of the assembled context and is removed by the regenerate variant. -/
theorem c7_regen_strips_last_assistant_witness :
    rposLast isAssistantRole (c7Store.get_context false 0 "clock").1.1 = some 2 ∧
    ((c7Store.get_regen_context false 0 "clock").1.1 =
       ((c7Store.get_context false 0 "clock").1.1).eraseIdx 2 ∧
     ∃ e, ((c7Store.get_context false 0 "clock").1.1).get? 2 = some e ∧
       isAssistantRole e = true ∧
       (e ∈ (c7Store.get_context false 0 "clock").2.selectedList ∨
        e ∈ ((c7Store.get_context false 0 "clock").1.2).getD [])) :=
  ⟨by decide,
   (c7_regen_strips_last_assistant c7Store false 0 "clock").2.2.2 2 (by decide)⟩

/-- Store whose only assistant Slot is the oldest while the window is full
(`max_stm = 2`), the corner refuting C7 as stated. -/
def c7CexStore : ChatContext :=
  { messages :=
      [(1, { msgs := [{ role := "assistant", content := "gone", sent_at := 10 }],
             cursor := 0, id := 1 }),
       (2, { msgs := [{ role := "user", content := "hi", sent_at := 20 }],
             cursor := 0, id := 2 })]
    system_prompt := SystemPromptBuilder.new "Bot" "Alice" "about text" 3 2 }

/-- Counterexample to C7 as stated: the assistant-role Variant removed from
the returned sequence was evicted from the store by the STM trim of the same
call — it is no longer present in the store, only in the evicted list. -/
theorem c7_counterexample_removed_variant_was_evicted :
    rposLast isAssistantRole (c7CexStore.get_context false 0 "clock").1.1 = some 1 ∧
    ((c7CexStore.get_context false 0 "clock").1.1).get? 1 =
      some { role := "assistant", content := "gone", sent_at := 10 } ∧
    (c7CexStore.get_regen_context false 0 "clock").2.messages =
      [(2, { msgs := [{ role := "user", content := "hi", sent_at := 20 }],
             cursor := 0, id := 2 })] ∧
    ¬ (({ role := "assistant", content := "gone", sent_at := 10 } : ChatMessage) ∈
        (c7CexStore.get_regen_context false 0 "clock").2.selectedList) ∧
    ({ role := "assistant", content := "gone", sent_at := 10 } : ChatMessage) ∈
      ((c7CexStore.get_regen_context false 0 "clock").1.2).getD [] := by
  refine ⟨by decide, rfl, rfl, by decide, by decide⟩

/-- Helper: inserting an absent key appends the entry at the end of the
insertion order. -/
theorem insertIndexMap_append_of_not_mem (k : Nat) (v : Messages)
    (l : List (Nat × Messages)) (h : k ∉ l.map Prod.fst) :
    insertIndexMap k v l = l ++ [(k, v)] := by
  induction l with
  | nil => rfl
  | cons p rest ih =>
    obtain ⟨k', v'⟩ := p
    simp only [List.map_cons, List.mem_cons] at h
    push_neg at h
    have hne' : ¬ k' = k := fun hh => h.1 hh.symm
    simp [insertIndexMap, hne', ih h.2]

/-- Helper: the store left behind by `get_context` is empty exactly when the
incoming store was empty or `max_stm ≤ 1` — in the latter case
`max_stm * 4 / 5 = 0`, so a nonempty store (whose length is then necessarily
at least `max_stm`) is drained in its entirety. -/
theorem get_context_store_empty_iff (c : ChatContext) (r : Bool) (now : Int)
    (ts : String) :
    (c.get_context r now ts).2.messages = [] ↔
      (c.messages = [] ∨ c.system_prompt.max_stm ≤ 1) := by
  rcases em (c.messages = []) with hE | hne
  · rw [get_context_empty_eq c r now ts hE]
    simp [hE]
  · have hlen0 : c.messages.length ≠ 0 :=
      fun h0 => hne (List.length_eq_zero.mp h0)
    rcases em (c.messages.length ≥ c.system_prompt.max_stm) with hge | hlt
    · rw [get_context_full_eq c r now ts hne hge]
      simp only [List.drop_eq_nil_iff]
      constructor
      · intro hh
        right
        omega
      · intro hh
        rcases hh with hh | hh
        · exact absurd hh hne
        · omega
    · rw [get_context_small_eq c r now ts hne (by omega)]
      simp only [hne, false_or, iff_iff_implies_and_implies]
      constructor
      · intro hh
        exact hh.elim
      · intro hh
        omega

/-- C8 (amended): `freewill_context` fails with the empty-context error
exactly when the store it measures idle time on — the store already trimmed
by the base assembly — is empty, i.e. when the Branch Store had no prior
message or `max_stm ≤ 1` made the trim drain every Slot; otherwise it
returns the base assembled context with one synthetic user-role Variant (no
externally supplied identity; the generated identity `fresh` is assumed
unused) appended, and records that same Variant in the store as a new Slot at
the end of the insertion order.  (The unamended claim states the error occurs
if and only if the store has no prior message.) -/
theorem c8_freewill_error_iff_and_records_nudge (c : ChatContext) (r : Bool)
    (now : Int) (ts : String) (fresh : Nat) :
    ((∃ e, (c.freewill_context r now ts fresh).1 = Except.error e) ↔
       (c.messages = [] ∨ c.system_prompt.max_stm ≤ 1)) ∧
    (c.messages = [] →
       (c.freewill_context r now ts fresh).1 =
         Except.error "Context is empty, nothing to freewill out of" ∧
       (c.freewill_context r now ts fresh).2 = c) ∧
    (∀ k sl, (c.get_context r now ts).2.messages.getLast? = some (k, sl) →
       fresh ∉ (c.get_context r now ts).2.keys →
       (c.freewill_context r now ts fresh).1 =
         Except.ok ((c.get_context r now ts).1.1 ++
             [{ role := "user",
                content := freewillText (time_to_string (now - sl.selected.sent_at)),
                sent_at := 0 }],
           (c.get_context r now ts).1.2) ∧
       (c.freewill_context r now ts fresh).2.messages =
         (c.get_context r now ts).2.messages ++
           [(fresh,
             { msgs :=
                 [{ role := "user",
                    content := freewillText (time_to_string (now - sl.selected.sent_at)),
                    sent_at := 0 }],
               cursor := 0, id := fresh })]) := by
  refine ⟨?_, ?_, ?_⟩
  · cases hlast : (c.get_context r now ts).2.messages.getLast? with
    | none =>
      have hempty : (c.get_context r now ts).2.messages = [] :=
        List.getLast?_eq_none_iff.mp hlast
      constructor
      · intro _
        exact (get_context_store_empty_iff c r now ts).mp hempty
      · intro _
        refine ⟨"Context is empty, nothing to freewill out of", ?_⟩
        simp only [ChatContext.freewill_context, ChatContext.time_since_last,
          ChatContext.latest, hlast, Option.map_none']
    | some p =>
      obtain ⟨k, sl⟩ := p
      have hne2 : (c.get_context r now ts).2.messages ≠ [] := by
        intro h0
        rw [h0] at hlast
        cases hlast
      constructor
      · rintro ⟨e, he⟩
        simp only [ChatContext.freewill_context, ChatContext.time_since_last,
          ChatContext.latest, hlast, Option.map_some'] at he
        cases he
      · intro hrhs
        exact absurd ((get_context_store_empty_iff c r now ts).mpr hrhs) hne2
  · intro hE
    have hlast : (c.get_context r now ts).2.messages.getLast? = none := by
      rw [get_context_empty_eq c r now ts hE]
      simp [hE]
    constructor
    · simp only [ChatContext.freewill_context, ChatContext.time_since_last,
        ChatContext.latest, hlast, Option.map_none']
    · simp only [ChatContext.freewill_context, ChatContext.time_since_last,
        ChatContext.latest, hlast, Option.map_none']
      rw [get_context_empty_eq c r now ts hE]
  · intro k sl hlast hfresh
    simp only [ChatContext.keys] at hfresh
    constructor
    · simp only [ChatContext.freewill_context, ChatContext.time_since_last,
        ChatContext.latest, hlast, Option.map_some']
      rfl
    · simp only [ChatContext.freewill_context, ChatContext.time_since_last,
        ChatContext.latest, hlast, Option.map_some', ChatContext.add_message]
      exact insertIndexMap_append_of_not_mem fresh _ _ hfresh

/-- Slot used by the C8 witness store. -/
def c8Slot : Messages :=
  { msgs := [{ role := "user", content := "hi", sent_at := 100 }]
    cursor := 0
    id := 1 }

/-- Store with one user Slot under `max_stm = 5`, used by the C8 witness. -/
def c8Store : ChatContext :=
  { messages := [(1, c8Slot)]
    system_prompt := SystemPromptBuilder.new "Bot" "Alice" "about text" 3 5 }

/-- Witness for the amended C8 theorem: with one prior message and
`max_stm = 5` the proactive nudge succeeds, appends the synthetic user-role
Variant to the returned context, and records it as a new Slot at the end of
the store. -/
theorem c8_freewill_error_iff_and_records_nudge_witness :
    (c8Store.get_context false 160 "clock").2.messages.getLast? = some (1, c8Slot) ∧
    (9 : Nat) ∉ (c8Store.get_context false 160 "clock").2.keys ∧
    ((c8Store.freewill_context false 160 "clock" 9).1 =
       Except.ok ((c8Store.get_context false 160 "clock").1.1 ++
           [{ role := "user",
              content := freewillText (time_to_string (160 - c8Slot.selected.sent_at)),
              sent_at := 0 }],
         (c8Store.get_context false 160 "clock").1.2) ∧
     (c8Store.freewill_context false 160 "clock" 9).2.messages =
       (c8Store.get_context false 160 "clock").2.messages ++
         [(9, { msgs :=
                  [{ role := "user",
                     content := freewillText (time_to_string (160 - c8Slot.selected.sent_at)),
                     sent_at := 0 }]
                cursor := 0
                id := 9 })]) :=
  ⟨by decide, by decide,
   (c8_freewill_error_iff_and_records_nudge c8Store false 160 "clock" 9).2.2 1
     c8Slot (by decide) (by decide)⟩

/-- Nonempty store configured with `max_stm = 1`, the corner refuting C8 as
stated: the base assembly drains every Slot, so measuring idle time fails
although a prior message existed. -/
def c8CexStore : ChatContext :=
  { messages :=
      [(1, { msgs := [{ role := "user", content := "hi", sent_at := 100 }]
             cursor := 0
             id := 1 })]
    system_prompt := SystemPromptBuilder.new "Bot" "Alice" "about text" 3 1 }

/-- Counterexample to C8 as stated: the store does have a prior message, yet
`freewill_context` fails with the empty-context error because `max_stm = 1`
makes the STM trim drain the whole store first. -/
theorem c8_counterexample_nonempty_store_still_errors :
    c8CexStore.messages ≠ [] ∧
    (c8CexStore.freewill_context false 200 "clock" 9).1 =
      Except.error "Context is empty, nothing to freewill out of" :=
  ⟨by decide, rfl⟩
